import Mathlib

/-!
Verification of the wikibee configuration subsystem.

Embedded source: `src/wikibee/config.py` (class `WikibeeConfig`, function
`load_config`).  The settings resolver described by the spec lives in
`wikibee/cli.py`, which is not part of the available sources (only its tests
are), so the resolver is modelled from the spec where needed; every such
definition is marked `Modelled from the spec:` in its doc comment.
-/

namespace Wikibee

/-- A Python primitive or nested-dict value as produced by `tomli.load`,
plus `vNone` for Python `None` (the default of `WikibeeConfig.get`). -/
inductive PyVal where
  | vNone : PyVal
  | vBool : Bool → PyVal
  | vInt : Int → PyVal
  | vStr : String → PyVal
  | vDict : List (String × PyVal) → PyVal

/-- First-match association-list lookup; models Python `dict` indexing
(keys in a parsed dict are unique, so first match is the match). -/
def lookupKey : List (String × PyVal) → String → Option PyVal
  | [], _ => none
  | (k, v) :: rest, key => if k = key then some v else lookupKey rest key

/-- Python `dict.get(key, default)`. -/
def dictGet (entries : List (String × PyVal)) (key : String) (default : PyVal) : PyVal :=
  match lookupKey entries key with
  | some v => v
  | none => default

/-- Is this value a table (Python `dict`)? Only tables answer `.get`. -/
def PyVal.isTable : PyVal → Bool
  | .vDict _ => true
  | _ => false

/-- `WikibeeConfig` from src/wikibee/config.py: wraps the parsed data. -/
structure WikibeeConfig where
  data : List (String × PyVal)

/-- `WikibeeConfig.get` from src/wikibee/config.py:
`return self._data.get(section, {}).get(key, default)`.
If the section's stored value is not a dict, the attribute access `.get`
on it raises `AttributeError`; we model raising with `Except.error`. -/
def WikibeeConfig.get (cfg : WikibeeConfig) (sect key : String) (default : PyVal) :
    Except String PyVal :=
  match lookupKey cfg.data sect with
  | none => Except.ok (dictGet [] key default)
  | some (.vDict es) => Except.ok (dictGet es key default)
  | some _ => Except.error "AttributeError: object has no attribute get"

/-- Calling `WikibeeConfig.get` without its third argument: the Python
signature is `get(self, section, key, default: Any = None)`, so the
omitted default is `None`. -/
def WikibeeConfig.getNoDefault (cfg : WikibeeConfig) (sect key : String) :
    Except String PyVal :=
  cfg.get sect key PyVal.vNone

/-- `Except.isOk` specialised to our value type ("returned without raising"). -/
def exceptOk : Except String PyVal → Bool
  | .ok _ => true
  | .error _ => false

/-- The on-disk state of the config file as `load_config` observes it:
the file is absent; or `tomli.load` succeeds with some parsed data
(an empty file parses to the empty dict, i.e. `parsesTo []`); or
`tomli.load` raises `TOMLDecodeError`; or opening/reading the file raises
some other exception (permission denied, path is a directory, ...). -/
inductive DiskState where
  | absent : DiskState
  | parsesTo : List (String × PyVal) → DiskState
  | parseError : String → DiskState
  | readError : String → DiskState

/-- `load_config` from src/wikibee/config.py.  The second component of the
result is the exact sequence of lines the function writes to stdout via
`print` (its only side effect); the first component is its return value.
`config_data` starts `{}` and is only replaced on a successful parse, so
every failure path returns the empty mapping. -/
def loadConfig (path : String) (disk : DiskState) : WikibeeConfig × List String :=
  match disk with
  | .absent => (⟨[]⟩, [])
  | .parsesTo d => (⟨d⟩, [])
  | .parseError e =>
      (⟨[]⟩, ["Warning: Could not parse config file " ++ path ++ ": " ++ e])
  | .readError e =>
      (⟨[]⟩, ["Warning: Could not read config file " ++ path ++ ": " ++ e])

/-- Modelled from the spec: the Config Store accessor as §4.3 words it —
"Looks up `section` then `key`; returns `default` if either is absent."
Used only to compare against the source `WikibeeConfig.get`. -/
def specGet (data : List (String × PyVal)) (sect key : String) (default : PyVal) : PyVal :=
  match lookupKey data sect with
  | some (.vDict es) =>
      match lookupKey es key with
      | some v => v
      | none => default
  | _ => default

/-- Holds when `section`/`key` is absent in the data in the sense of §4.3:
the section is missing, or the section is a table without the key. -/
def keyAbsent (data : List (String × PyVal)) (sect key : String) : Bool :=
  match lookupKey data sect with
  | none => true
  | some (.vDict es) => (lookupKey es key).isNone
  | some _ => false

/-- Modelled from the spec: the flat, strongly typed settings record of §3
(`ResolvedSettings`); the resolver producing it lives in wikibee/cli.py,
which is not among the available sources. -/
structure ResolvedSettings where
  output_dir : Option String
  retries : Int
  no_save : Bool
  verbose : Bool
  yolo : Bool
  search_limit : Int
  tts_server_url : Option String
deriving DecidableEq

/-- The field names of `ResolvedSettings`, in declaration order. -/
def resolvedFieldNames : List String :=
  ["output_dir", "retries", "no_save", "verbose", "yolo", "search_limit",
   "tts_server_url"]

/-- Modelled from the spec: the explicit alias table of §4.4 — file key
`general.auto_select` maps to the resolved field `yolo`. -/
def aliasTable : List ((String × String) × String) :=
  [(("general", "auto_select"), "yolo")]

/-- Lookup in the alias table. -/
def aliasLookup : List ((String × String) × String) → String × String → Option String
  | [], _ => none
  | (k, v) :: rest, key => if k = key then some v else aliasLookup rest key

/-- Modelled from the spec: the CLI flag layer of §4.4 item 1 — each flag is
an explicit-or-absent value (`none` = not explicitly supplied by the user). -/
structure CliFlags where
  output_dir : Option String
  retries : Option Int
  no_save : Option Bool
  verbose : Option Bool
  yolo : Option Bool
  search_limit : Option Int
  tts_server_url : Option String

/-- No CLI flag explicitly supplied. -/
def noFlags : CliFlags := ⟨none, none, none, none, none, none, none⟩

/-- First-match lookup in the process environment. -/
def envLookup : List (String × String) → String → Option String
  | [], _ => none
  | (k, v) :: rest, key => if k = key then some v else envLookup rest key

/-- Modelled from the spec: §4.4 item 2 — the environment layer supplies a
value only "if present and non-empty". -/
def envStr (env : List (String × String)) (name : String) : Option String :=
  match envLookup env name with
  | some s => if s = "" then none else some s
  | none => none

/-- ASCII lowercasing, character by character (Python `str.lower` on the
ASCII keywords the coercion table recognises). -/
def lowerStr (s : String) : String :=
  ⟨s.data.map Char.toLower⟩

/-- Modelled from the spec: boolean coercion of textual sources (§4.4),
case-insensitive; unrecognised text is a coercion error (`none`),
treated as absent. -/
def parseBoolText (s : String) : Option Bool :=
  let t := lowerStr s
  if t = "1" ∨ t = "true" ∨ t = "yes" ∨ t = "on" then some true
  else if t = "0" ∨ t = "false" ∨ t = "no" ∨ t = "off" ∨ t = "" then some false
  else none

/-- Base-10 digit-string value; `none` on the empty string or any
non-digit character. -/
def parseDigits (ds : List Char) : Option Nat :=
  match ds with
  | [] => none
  | _ =>
      ds.foldl
        (fun acc c =>
          match acc with
          | none => none
          | some n => if c.isDigit then some (n * 10 + (c.toNat - 48)) else none)
        (some 0)

/-- Modelled from the spec: base-10 integer parsing of textual sources
(§4.4), with an optional leading minus sign; parse failure is a coercion
error (`none`), treated as absent. -/
def parseIntText (s : String) : Option Int :=
  match s.data with
  | '-' :: ds => (parseDigits ds).map (fun n => -(n : Int))
  | ds => (parseDigits ds).map (fun n => (n : Int))

/-- Canonical textual rendering of a boolean as an environment value,
one of the forms the §4.4 coercion table accepts. -/
def boolText (b : Bool) : String :=
  if b then "true" else "false"

/-- Store lookup for the resolver: absent key (`None` default) or a raised
lookup is treated as "this layer supplies nothing". -/
def storeGet (store : WikibeeConfig) (sect key : String) : Option PyVal :=
  match store.get sect key PyVal.vNone with
  | .ok .vNone => none
  | .ok v => some v
  | .error _ => none

/-- Modelled from the spec: a file value for a string field is passed
through verbatim; a non-string is a coercion error, treated as absent. -/
def fileCoerceStr : Option PyVal → Option String
  | some (.vStr s) => some s
  | _ => none

/-- Modelled from the spec: a file value for a boolean field is used
directly if already boolean; otherwise treated as absent (§4.4). -/
def fileCoerceBool : Option PyVal → Option Bool
  | some (.vBool b) => some b
  | _ => none

/-- Modelled from the spec: a file value for an integer field is used
directly if already an integer; a textual value is parsed base-10; on
failure the layer is treated as absent (§4.4). -/
def fileCoerceInt : Option PyVal → Option Int
  | some (.vInt n) => some n
  | some (.vStr s) => parseIntText s
  | _ => none

/-- First explicit value in the order CLI, environment, file, default. -/
def pick3 {α : Type} : Option α → Option α → Option α → α → α
  | some v, _, _, _ => v
  | none, some v, _, _ => v
  | none, none, some v, _ => v
  | none, none, none, d => d

/-- First explicit value for an optional-string field (the hardcoded
default of such a field is `none`). -/
def pickOpt (c e f : Option String) : Option String :=
  match c with
  | some v => some v
  | none =>
      match e with
      | some v => some v
      | none => f

/-- Modelled from the spec: the hardcoded defaults baked into the resolver
(§4.4 item 4).  The spec fixes which fields exist but not every default
value; the concrete numbers are placeholders — no claim depends on them. -/
def defaults : ResolvedSettings := ⟨none, 3, false, false, false, 3, none⟩

/-- Modelled from the spec: the Settings Resolver of §4.4 —
`resolve(cli_flags, environment, store) -> ResolvedSettings`, taking for
each field the first source that supplies an explicit value in the order
CLI (explicitly supplied), environment (present and non-empty), config
file, hardcoded default; `yolo` reads the aliased file key
`general.auto_select`.  Environment names follow the `WIKIBEE_` convention
of the tests.  A pure function: the call has no side effects. -/
def resolve (cli : CliFlags) (env : List (String × String)) (store : WikibeeConfig) :
    ResolvedSettings :=
  ⟨pickOpt cli.output_dir (envStr env "WIKIBEE_OUTPUT_DIR")
      (fileCoerceStr (storeGet store "general" "output_dir")),
   pick3 cli.retries ((envStr env "WIKIBEE_RETRIES").bind parseIntText)
      (fileCoerceInt (storeGet store "general" "retries")) defaults.retries,
   pick3 cli.no_save ((envStr env "WIKIBEE_NO_SAVE").bind parseBoolText)
      (fileCoerceBool (storeGet store "general" "no_save")) defaults.no_save,
   pick3 cli.verbose ((envStr env "WIKIBEE_VERBOSE").bind parseBoolText)
      (fileCoerceBool (storeGet store "general" "verbose")) defaults.verbose,
   pick3 cli.yolo ((envStr env "WIKIBEE_YOLO").bind parseBoolText)
      (fileCoerceBool (storeGet store "general" "auto_select")) defaults.yolo,
   pick3 cli.search_limit ((envStr env "WIKIBEE_SEARCH_LIMIT").bind parseIntText)
      (fileCoerceInt (storeGet store "search" "search_limit")) defaults.search_limit,
   pickOpt cli.tts_server_url (envStr env "WIKIBEE_TTS_SERVER_URL")
      (fileCoerceStr (storeGet store "tts" "server_url"))⟩

/-- If every top-level value of the data is a table, any successful
section lookup yields a table. -/
theorem lookupKey_isTable (data : List (String × PyVal))
    (h : ∀ p ∈ data, PyVal.isTable p.2 = true) :
    ∀ (s : String) (v : PyVal), lookupKey data s = some v → PyVal.isTable v = true := by
  induction data with
  | nil => intro s v hv; simp [lookupKey] at hv
  | cons p rest ih =>
      intro s v hv
      obtain ⟨k, w⟩ := p
      by_cases hk : k = s
      · simp [lookupKey, hk] at hv
        exact hv ▸ h (k, w) (List.mem_cons_self _ _)
      · simp [lookupKey, hk] at hv
        exact ih (fun q hq => h q (List.mem_cons_of_mem _ hq)) s v hv

/-- C3: on data whose top-level values are all tables (the spec's
`RawConfigData` shape), `WikibeeConfig.get` returns exactly what §4.3
prescribes: the stored value when section and key are both present, and
the given default verbatim when either is absent, with no coercion. -/
theorem wikibee_get_matches_spec (data : List (String × PyVal)) (sect key : String)
    (default : PyVal) (h : ∀ p ∈ data, PyVal.isTable p.2 = true) :
    WikibeeConfig.get ⟨data⟩ sect key default = Except.ok (specGet data sect key default) := by
  cases heq : lookupKey data sect with
  | none => simp [WikibeeConfig.get, specGet, heq, dictGet, lookupKey]
  | some v =>
      cases v with
      | vDict es =>
          cases hk : lookupKey es key with
          | none => simp [WikibeeConfig.get, specGet, heq, dictGet, hk]
          | some w => simp [WikibeeConfig.get, specGet, heq, dictGet, hk]
      | vNone => exact absurd (lookupKey_isTable data h sect _ heq) (by simp [PyVal.isTable])
      | vBool b => exact absurd (lookupKey_isTable data h sect _ heq) (by simp [PyVal.isTable])
      | vInt n => exact absurd (lookupKey_isTable data h sect _ heq) (by simp [PyVal.isTable])
      | vStr s => exact absurd (lookupKey_isTable data h sect _ heq) (by simp [PyVal.isTable])

/-- C3 witness at a concrete well-formed data mapping. -/
theorem wikibee_get_matches_spec_witness :
    WikibeeConfig.get ⟨[("general", PyVal.vDict [("output_dir", PyVal.vStr "x")])]⟩
        "general" "output_dir" PyVal.vNone =
      Except.ok (specGet [("general", PyVal.vDict [("output_dir", PyVal.vStr "x")])]
        "general" "output_dir" PyVal.vNone) :=
  wikibee_get_matches_spec _ "general" "output_dir" PyVal.vNone (by
    intro p hp
    rw [List.mem_singleton] at hp
    subst hp
    rfl)

/-- C9: `WikibeeConfig.get` returns without raising exactly when the
top-level value it touches (if any) is a mapping; when the section maps to
a non-mapping value, it raises (`AttributeError`) instead of returning the
default. -/
theorem get_requires_table_sections (data : List (String × PyVal)) (sect key : String)
    (default : PyVal) :
    exceptOk (WikibeeConfig.get ⟨data⟩ sect key default) = true ↔
      ∀ v, lookupKey data sect = some v → PyVal.isTable v = true := by
  cases heq : lookupKey data sect with
  | none => simp [WikibeeConfig.get, exceptOk, heq]
  | some v => cases v <;> simp [WikibeeConfig.get, exceptOk, heq, PyVal.isTable]

/-- C9 witness: with a top-level scalar key, the accessor raises — both
sides of the equivalence are false at this input. -/
theorem get_requires_table_sections_witness :
    exceptOk (WikibeeConfig.get ⟨[("x", PyVal.vInt 1)]⟩ "x" "k" PyVal.vNone) = true ↔
      ∀ v, lookupKey [("x", PyVal.vInt 1)] "x" = some v → PyVal.isTable v = true :=
  get_requires_table_sections _ "x" "k" PyVal.vNone

/-- C10: the default parameter of `get` is optional and defaults to `None`
(Python signature `default: Any = None`): whenever the section or the key
is absent, calling `get` without a third argument returns `None`. -/
theorem get_default_is_none (data : List (String × PyVal)) (sect key : String)
    (h : keyAbsent data sect key = true) :
    WikibeeConfig.getNoDefault ⟨data⟩ sect key = Except.ok PyVal.vNone ∧
    WikibeeConfig.getNoDefault ⟨data⟩ sect key =
      WikibeeConfig.get ⟨data⟩ sect key PyVal.vNone := by
  refine ⟨?_, rfl⟩
  cases heq : lookupKey data sect with
  | none => simp [WikibeeConfig.getNoDefault, WikibeeConfig.get, heq, dictGet, lookupKey]
  | some v =>
      cases v with
      | vDict es =>
          simp [keyAbsent, heq] at h
          cases hk : lookupKey es key with
          | none => simp [WikibeeConfig.getNoDefault, WikibeeConfig.get, heq, dictGet, hk]
          | some w => simp [hk] at h
      | vNone => simp [keyAbsent, heq] at h
      | vBool b => simp [keyAbsent, heq] at h
      | vInt n => simp [keyAbsent, heq] at h
      | vStr s => simp [keyAbsent, heq] at h

/-- C10 witness at a data mapping lacking the requested key. -/
theorem get_default_is_none_witness :
    WikibeeConfig.getNoDefault ⟨[("general", PyVal.vDict [])]⟩ "general" "output_dir" =
        Except.ok PyVal.vNone ∧
    WikibeeConfig.getNoDefault ⟨[("general", PyVal.vDict [])]⟩ "general" "output_dir" =
      WikibeeConfig.get ⟨[("general", PyVal.vDict [])]⟩ "general" "output_dir" PyVal.vNone :=
  get_default_is_none [("general", PyVal.vDict [])] "general" "output_dir" rfl

/-- C2: `load_config` is total over every on-disk state (its embedding is a
total function, mirroring the blanket exception handler in the source),
and every failure state — absent file, parse failure, read failure — as
well as an empty file yields the same empty mapping as an absent file. -/
theorem load_config_failures_yield_empty (path m : String) :
    (loadConfig path DiskState.absent).1 = ⟨[]⟩ ∧
    (loadConfig path (DiskState.parseError m)).1 = (loadConfig path DiskState.absent).1 ∧
    (loadConfig path (DiskState.readError m)).1 = (loadConfig path DiskState.absent).1 ∧
    (loadConfig path (DiskState.parsesTo [])).1 = (loadConfig path DiskState.absent).1 :=
  ⟨rfl, rfl, rfl, rfl⟩

/-- C4 counterexample: on a read failure the emitted line says
"Could not read config file", which is not the "Could not parse config
file" form the claim asserts for read errors. -/
theorem read_error_warning_not_parse_form :
    (loadConfig "cfg.toml" (DiskState.readError "Permission denied")).2 =
      ["Warning: Could not read config file cfg.toml: Permission denied"] ∧
    "Warning: Could not read config file cfg.toml: Permission denied" ≠
      "Warning: Could not parse config file cfg.toml: Permission denied" :=
  ⟨rfl, by decide⟩

/-- C4 amended: exactly one warning line is produced when the file exists
but fails; parse failures use the "Could not parse config file" form while
read failures use the "Could not read config file" form; no other output
is produced in any state. -/
theorem warning_forms (path e : String) (d : List (String × PyVal)) :
    (loadConfig path (DiskState.parseError e)).2 =
      ["Warning: Could not parse config file " ++ path ++ ": " ++ e] ∧
    (loadConfig path (DiskState.readError e)).2 =
      ["Warning: Could not read config file " ++ path ++ ": " ++ e] ∧
    (loadConfig path DiskState.absent).2 = [] ∧
    (loadConfig path (DiskState.parsesTo d)).2 = [] :=
  ⟨rfl, rfl, rfl, rfl⟩

/-- C5 counterexample: on a malformed file the loader itself writes a line
to stdout (its print trace is non-empty), contradicting "never writes to
any output stream"; its return value (a bare `WikibeeConfig`) carries no
warning. -/
theorem loader_prints_directly :
    (loadConfig "cfg.toml" (DiskState.parseError "bad")).2 ≠ [] := by
  simp [loadConfig]

/-- C5 amended: the loader prints the single warning line itself and
returns only the configuration object; beyond that returned object and at
most that one printed line there is no observable effect. -/
theorem loader_output_and_return (path e : String) (d : List (String × PyVal)) :
    loadConfig path DiskState.absent = (⟨[]⟩, []) ∧
    loadConfig path (DiskState.parsesTo d) = (⟨d⟩, []) ∧
    loadConfig path (DiskState.parseError e) =
      (⟨[]⟩, ["Warning: Could not parse config file " ++ path ++ ": " ++ e]) ∧
    loadConfig path (DiskState.readError e) =
      (⟨[]⟩, ["Warning: Could not read config file " ++ path ++ ": " ++ e]) :=
  ⟨rfl, rfl, rfl, rfl⟩

/-- A textual boolean environment value is never the empty string. -/
theorem boolText_ne_empty (b : Bool) : boolText b ≠ "" := by
  cases b <;> decide

/-- The §4.4 boolean coercion inverts the textual rendering. -/
theorem parseBoolText_boolText (b : Bool) : parseBoolText (boolText b) = some b := by
  cases b <;> rfl

/-- C1: for every resolvable field — `output_dir`, `retries`, `no_save`,
`verbose`, `yolo`, `search_limit`, `tts_server_url` — resolution takes the
first explicit value in the fixed order CLI flag (only if explicitly
supplied), environment variable (if set and non-empty), config-file value,
hardcoded default: per field, with file value, environment value and
explicit CLI value all present the CLI value wins; dropping the CLI flag
yields the environment value; dropping the environment variable as well
yields the file value; and with no source at all every field is its
hardcoded default.  In particular for `output_dir` with file = `a`,
environment = `b`, CLI = `c` the resolved value is `c`, then `b`, then `a`. -/
theorem cli_env_file_precedence (a b c : String) (fr er cr : Int) (sr : String)
    (fb eb cb : Bool) (fl el cl : Int) (sl : String)
    (hb : b ≠ "") (hsr0 : sr ≠ "") (hsr : parseIntText sr = some er)
    (hsl0 : sl ≠ "") (hsl : parseIntText sl = some el) :
    (resolve ⟨some c, none, none, none, none, none, none⟩
        [("WIKIBEE_OUTPUT_DIR", b)]
        ⟨[("general", PyVal.vDict [("output_dir", PyVal.vStr a)])]⟩).output_dir = some c ∧
    (resolve noFlags [("WIKIBEE_OUTPUT_DIR", b)]
        ⟨[("general", PyVal.vDict [("output_dir", PyVal.vStr a)])]⟩).output_dir = some b ∧
    (resolve noFlags []
        ⟨[("general", PyVal.vDict [("output_dir", PyVal.vStr a)])]⟩).output_dir = some a ∧
    (resolve ⟨none, some cr, none, none, none, none, none⟩
        [("WIKIBEE_RETRIES", sr)]
        ⟨[("general", PyVal.vDict [("retries", PyVal.vInt fr)])]⟩).retries = cr ∧
    (resolve noFlags [("WIKIBEE_RETRIES", sr)]
        ⟨[("general", PyVal.vDict [("retries", PyVal.vInt fr)])]⟩).retries = er ∧
    (resolve noFlags []
        ⟨[("general", PyVal.vDict [("retries", PyVal.vInt fr)])]⟩).retries = fr ∧
    (resolve ⟨none, none, some cb, none, none, none, none⟩
        [("WIKIBEE_NO_SAVE", boolText eb)]
        ⟨[("general", PyVal.vDict [("no_save", PyVal.vBool fb)])]⟩).no_save = cb ∧
    (resolve noFlags [("WIKIBEE_NO_SAVE", boolText eb)]
        ⟨[("general", PyVal.vDict [("no_save", PyVal.vBool fb)])]⟩).no_save = eb ∧
    (resolve noFlags []
        ⟨[("general", PyVal.vDict [("no_save", PyVal.vBool fb)])]⟩).no_save = fb ∧
    (resolve ⟨none, none, none, some cb, none, none, none⟩
        [("WIKIBEE_VERBOSE", boolText eb)]
        ⟨[("general", PyVal.vDict [("verbose", PyVal.vBool fb)])]⟩).verbose = cb ∧
    (resolve noFlags [("WIKIBEE_VERBOSE", boolText eb)]
        ⟨[("general", PyVal.vDict [("verbose", PyVal.vBool fb)])]⟩).verbose = eb ∧
    (resolve noFlags []
        ⟨[("general", PyVal.vDict [("verbose", PyVal.vBool fb)])]⟩).verbose = fb ∧
    (resolve ⟨none, none, none, none, some cb, none, none⟩
        [("WIKIBEE_YOLO", boolText eb)]
        ⟨[("general", PyVal.vDict [("auto_select", PyVal.vBool fb)])]⟩).yolo = cb ∧
    (resolve noFlags [("WIKIBEE_YOLO", boolText eb)]
        ⟨[("general", PyVal.vDict [("auto_select", PyVal.vBool fb)])]⟩).yolo = eb ∧
    (resolve noFlags []
        ⟨[("general", PyVal.vDict [("auto_select", PyVal.vBool fb)])]⟩).yolo = fb ∧
    (resolve ⟨none, none, none, none, none, some cl, none⟩
        [("WIKIBEE_SEARCH_LIMIT", sl)]
        ⟨[("search", PyVal.vDict [("search_limit", PyVal.vInt fl)])]⟩).search_limit = cl ∧
    (resolve noFlags [("WIKIBEE_SEARCH_LIMIT", sl)]
        ⟨[("search", PyVal.vDict [("search_limit", PyVal.vInt fl)])]⟩).search_limit = el ∧
    (resolve noFlags []
        ⟨[("search", PyVal.vDict [("search_limit", PyVal.vInt fl)])]⟩).search_limit = fl ∧
    (resolve ⟨none, none, none, none, none, none, some c⟩
        [("WIKIBEE_TTS_SERVER_URL", b)]
        ⟨[("tts", PyVal.vDict [("server_url", PyVal.vStr a)])]⟩).tts_server_url = some c ∧
    (resolve noFlags [("WIKIBEE_TTS_SERVER_URL", b)]
        ⟨[("tts", PyVal.vDict [("server_url", PyVal.vStr a)])]⟩).tts_server_url = some b ∧
    (resolve noFlags []
        ⟨[("tts", PyVal.vDict [("server_url", PyVal.vStr a)])]⟩).tts_server_url = some a ∧
    resolve noFlags [] ⟨[]⟩ = defaults := by
  refine ⟨rfl, ?_, rfl, rfl, ?_, rfl, rfl, ?_, rfl, rfl, ?_, rfl, rfl, ?_, rfl,
    rfl, ?_, rfl, rfl, ?_, rfl, rfl⟩
  · simp [resolve, noFlags, pickOpt, envStr, envLookup, hb]
  · simp [resolve, noFlags, pick3, envStr, envLookup, hsr0, hsr, Option.bind]
  · simp [resolve, noFlags, pick3, envStr, envLookup, boolText_ne_empty,
      parseBoolText_boolText, Option.bind]
  · simp [resolve, noFlags, pick3, envStr, envLookup, boolText_ne_empty,
      parseBoolText_boolText, Option.bind]
  · simp [resolve, noFlags, pick3, envStr, envLookup, boolText_ne_empty,
      parseBoolText_boolText, Option.bind]
  · simp [resolve, noFlags, pick3, envStr, envLookup, hsl0, hsl, Option.bind]
  · simp [resolve, noFlags, pickOpt, envStr, envLookup, hb]

/-- C1 witness: the environment-beats-file conjunct of each field kind at
concrete inputs (file = "A"/1/false/11, environment = "B"/2/true/12). -/
theorem cli_env_file_precedence_witness :
    (resolve noFlags [("WIKIBEE_OUTPUT_DIR", "B")]
        ⟨[("general", PyVal.vDict [("output_dir", PyVal.vStr "A")])]⟩).output_dir
      = some "B" ∧
    (resolve noFlags [("WIKIBEE_RETRIES", "2")]
        ⟨[("general", PyVal.vDict [("retries", PyVal.vInt 1)])]⟩).retries = 2 ∧
    (resolve noFlags [("WIKIBEE_NO_SAVE", boolText true)]
        ⟨[("general", PyVal.vDict [("no_save", PyVal.vBool false)])]⟩).no_save = true ∧
    (resolve noFlags [("WIKIBEE_SEARCH_LIMIT", "12")]
        ⟨[("search", PyVal.vDict [("search_limit", PyVal.vInt 11)])]⟩).search_limit = 12 ∧
    (resolve noFlags [("WIKIBEE_TTS_SERVER_URL", "B")]
        ⟨[("tts", PyVal.vDict [("server_url", PyVal.vStr "A")])]⟩).tts_server_url
      = some "B" := by
  obtain ⟨h1, h2, h3, h4, h5, h6, h7, h8, h9, h10, h11, h12, h13, h14, h15, h16,
      h17, h18, h19, h20, h21, h22⟩ :=
    cli_env_file_precedence "A" "B" "C" 1 2 3 "2" false true false 11 12 13 "12"
      (by decide) (by decide) (by decide) (by decide) (by decide)
  exact ⟨h2, h5, h8, h17, h20⟩

/-- C6: a file setting `general.auto_select = true` resolves to
`yolo = true`; the alias table maps the file key `(general, auto_select)`
to the resolved field `yolo`; and `ResolvedSettings` has no field named
`auto_select`. -/
theorem auto_select_aliases_to_yolo :
    (resolve noFlags []
        ⟨[("general", PyVal.vDict [("auto_select", PyVal.vBool true)])]⟩).yolo = true ∧
    aliasLookup aliasTable ("general", "auto_select") = some "yolo" ∧
    "auto_select" ∉ resolvedFieldNames := by
  refine ⟨rfl, ?_, by decide⟩
  simp [aliasLookup, aliasTable]

/-- C7: an absent file and an empty file both load to the empty mapping
with no warning, and resolving the empty store with no environment
variables and no explicitly supplied CLI flags yields the hardcoded
defaults field for field. -/
theorem defaults_when_absent_or_empty (path : String) :
    (loadConfig path DiskState.absent).1 = ⟨[]⟩ ∧
    (loadConfig path DiskState.absent).2 = [] ∧
    (loadConfig path (DiskState.parsesTo [])).1 = ⟨[]⟩ ∧
    (loadConfig path (DiskState.parsesTo [])).2 = [] ∧
    resolve noFlags [] ⟨[]⟩ = defaults :=
  ⟨rfl, rfl, rfl, rfl, rfl⟩

/-- C8: resolution is deterministic in its three inputs — equal CLI flags,
equal environments and stores loaded from byte-identical file content
(hence equal `DiskState`s, whatever the path) resolve to field-for-field
identical settings; `resolve` is a pure function, so the call itself has
no side effects. -/
theorem resolution_deterministic (cli1 cli2 : CliFlags) (e1 e2 : List (String × String))
    (p1 p2 : String) (d1 d2 : DiskState)
    (hc : cli1 = cli2) (he : e1 = e2) (hd : d1 = d2) :
    resolve cli1 e1 (loadConfig p1 d1).1 = resolve cli2 e2 (loadConfig p2 d2).1 := by
  subst hc; subst he; subst hd
  have hstore : (loadConfig p1 d1).1 = (loadConfig p2 d1).1 := by
    cases d1 <;> rfl
  rw [hstore]

/-- C8 witness: two runs over the same content behind different paths. -/
theorem resolution_deterministic_witness :
    resolve noFlags []
        (loadConfig "a" (DiskState.parsesTo [("general", PyVal.vDict [])])).1 =
      resolve noFlags []
        (loadConfig "b" (DiskState.parsesTo [("general", PyVal.vDict [])])).1 :=
  resolution_deterministic noFlags noFlags [] [] "a" "b" _ _ rfl rfl rfl

end Wikibee
